import Mathlib

/-!
Verification of the feature-derivation and simple-AQI scoring core of the
Tiantan air-quality dashboard (`dashboard.py`).

Modelling choices:
* Pollutant concentrations and limits are rationals (`ℚ`); the Python code
  uses floating point, but every property checked here concerns exact
  arithmetic well inside the range where the two agree.
* A data row and a limits table are association lists `List (String × ℚ)`,
  mirroring the pandas row / Python dict; a failed key access (Python
  `KeyError`) is `Option.none`.
* `fillna(method := ffill)` acts on each column independently, so the
  forward-fill model works on a single column, a `List (Option ℚ)` in
  chronological row order with `none` for a missing value.
-/

/-- The WHO guideline table defined in `main` of `dashboard.py`. -/
def who_limits : List (String × ℚ) :=
  [("PM2.5", 25), ("PM10", 50), ("NO2", 40), ("SO2", 20), ("O3", 100)]

/-- Embedding of `calculate_simple_aqi(row, who_limits)` from `dashboard.py`:
it reads exactly the three keys `PM2.5`, `PM10`, `NO2` from the row and the
limits dict and returns `max(pm25_aqi, pm10_aqi, no2_aqi)`; a missing key
raises (here: `none`). -/
def calculate_simple_aqi (row limits : List (String × ℚ)) : Option ℚ :=
  match row.lookup "PM2.5", limits.lookup "PM2.5",
        row.lookup "PM10", limits.lookup "PM10",
        row.lookup "NO2", limits.lookup "NO2" with
  | some p25, some l25, some p10, some l10, some n2, some l2 =>
      some (max (p25 / l25) (max (p10 / l10) (n2 / l2)))
  | _, _, _, _, _, _ => none

/-- Embedding of `classify_aqi(aqi)` from `dashboard.py`: the if/elif chain
over the thresholds 1, 2, 3, 4. -/
def classify_aqi (aqi : ℚ) : String :=
  if aqi ≤ 1 then "Good"
  else if aqi ≤ 2 then "Moderate"
  else if aqi ≤ 3 then "Unhealthy for Sensitive Groups"
  else if aqi ≤ 4 then "Unhealthy"
  else "Very Unhealthy"

/-- Embedding of the season column of `load_data` in `dashboard.py`:
`pd.cut(month, bins := [0,3,6,9,12], labels := [Winter,Spring,Summer,Fall],
include_lowest := True)`. With `include_lowest` the first interval is the
closed `[0,3]`; the remaining ones are `(3,6]`, `(6,9]`, `(9,12]`. A month
outside every bin gets `NaN` (here: `none`), not an error. -/
def season (month : ℤ) : Option String :=
  if 0 ≤ month ∧ month ≤ 3 then some "Winter"
  else if 3 < month ∧ month ≤ 6 then some "Spring"
  else if 6 < month ∧ month ≤ 9 then some "Summer"
  else if 9 < month ∧ month ≤ 12 then some "Fall"
  else none

/-- Forward fill of one column with a carried last-seen value, the
per-column behaviour of `tiantan_df.fillna(method := ffill)` in
`load_data` of `dashboard.py`. -/
def ffill (c : Option ℚ) : List (Option ℚ) → List (Option ℚ)
  | [] => []
  | none :: t => c :: ffill c t
  | some v :: t => some v :: ffill (some v) t

/-- Forward fill of a whole column: no value precedes the first row. -/
def ffillCol (xs : List (Option ℚ)) : List (Option ℚ) :=
  ffill none xs

/-- Modelled from the spec: the score the specification describes, the
maximum of `row[p] / limits[p]` over every pollutant key `p` of the limits
table. Used only to compare the specified value with the implemented one. -/
def aqi_spec_value (row : List (String × ℚ)) : List (String × ℚ) → Option ℚ
  | [] => none
  | [(k, l)] => (row.lookup k).map (fun v => v / l)
  | (k, l) :: p :: t =>
      match row.lookup k, aqi_spec_value row (p :: t) with
      | some v, some m => some (max (v / l) m)
      | _, _ => none

/-- Claim C6: the daily aggregate PM2.5 = 50, PM10 = 50, NO2 = 20 scored
against limits PM2.5 = 25, PM10 = 50, NO2 = 40 gives the ratios 2, 1 and
1/2, hence the value 2, and classifying 2 yields Moderate. -/
theorem aqi_example_moderate :
    calculate_simple_aqi [("PM2.5", 50), ("PM10", 50), ("NO2", 20)]
        [("PM2.5", 25), ("PM10", 50), ("NO2", 40)] = some 2
    ∧ (50 / 25 : ℚ) = 2 ∧ (50 / 50 : ℚ) = 1 ∧ (20 / 40 : ℚ) = 1 / 2
    ∧ classify_aqi 2 = "Moderate" := by
  refine ⟨?_, by norm_num, by norm_num, by norm_num, by norm_num [classify_aqi]⟩
  simp [calculate_simple_aqi, List.lookup]
  norm_num

/-- Claim C2: on the non-negative reals the classification realises exactly
the partition of the spec table, each category holding precisely on its
interval, so every value gets exactly one category, 1 is Good and anything
strictly above 1 is Moderate or worse. -/
theorem classify_aqi_partition (v : ℚ) (hv : 0 ≤ v) :
    (classify_aqi v = "Good" ↔ v ≤ 1)
    ∧ (classify_aqi v = "Moderate" ↔ 1 < v ∧ v ≤ 2)
    ∧ (classify_aqi v = "Unhealthy for Sensitive Groups" ↔ 2 < v ∧ v ≤ 3)
    ∧ (classify_aqi v = "Unhealthy" ↔ 3 < v ∧ v ≤ 4)
    ∧ (classify_aqi v = "Very Unhealthy" ↔ 4 < v) := by
  unfold classify_aqi
  split_ifs with h1 h2 h3 h4 <;>
    refine ⟨?_, ?_, ?_, ?_, ?_⟩ <;>
    constructor <;>
    intro h <;>
    first
      | rfl
      | linarith
      | (constructor <;> linarith)
      | (exact absurd h (by decide))

/-- Witness for C2 at the boundary value 1. -/
theorem classify_aqi_partition_witness : (0 : ℚ) ≤ 1 ∧ classify_aqi 1 = "Good" :=
  ⟨by norm_num, (classify_aqi_partition 1 (by norm_num)).1.mpr (by norm_num)⟩

/-- Claim C10: the classification is total over all rationals, always
returning one of the five categories, and every strictly negative value is
classified Good. -/
theorem classify_aqi_total (v : ℚ) :
    (classify_aqi v = "Good" ∨ classify_aqi v = "Moderate"
      ∨ classify_aqi v = "Unhealthy for Sensitive Groups"
      ∨ classify_aqi v = "Unhealthy" ∨ classify_aqi v = "Very Unhealthy")
    ∧ (v < 0 → classify_aqi v = "Good") := by
  constructor
  · unfold classify_aqi
    split_ifs <;> simp
  · intro h
    have hv1 : v ≤ 1 := by linarith
    simp [classify_aqi, hv1]

/-- Witness for C10 at the negative value -1. -/
theorem classify_aqi_total_witness : (-1 : ℚ) < 0 ∧ classify_aqi (-1) = "Good" :=
  ⟨by norm_num, (classify_aqi_total (-1)).2 (by norm_num)⟩

/-- Claim C9: the score reads only the PM2.5, PM10 and NO2 entries of the
row and of the limits table; two rows and two limit tables agreeing on
those three keys yield the same result whatever their other entries. -/
theorem aqi_depends_only_on_three (row1 row2 lim1 lim2 : List (String × ℚ))
    (h1 : row1.lookup "PM2.5" = row2.lookup "PM2.5")
    (h2 : row1.lookup "PM10" = row2.lookup "PM10")
    (h3 : row1.lookup "NO2" = row2.lookup "NO2")
    (h4 : lim1.lookup "PM2.5" = lim2.lookup "PM2.5")
    (h5 : lim1.lookup "PM10" = lim2.lookup "PM10")
    (h6 : lim1.lookup "NO2" = lim2.lookup "NO2") :
    calculate_simple_aqi row1 lim1 = calculate_simple_aqi row2 lim2 := by
  unfold calculate_simple_aqi
  rw [h1, h2, h3, h4, h5, h6]

/-- Witness for C9: rows differing in SO2 and O3, limit tables differing in
SO2 and O3, same score. -/
theorem aqi_depends_only_on_three_witness :
    calculate_simple_aqi [("PM2.5", 50), ("PM10", 50), ("NO2", 20), ("SO2", 999)] who_limits
      = calculate_simple_aqi [("PM2.5", 50), ("PM10", 50), ("NO2", 20), ("O3", 7)]
          [("PM2.5", 25), ("PM10", 50), ("NO2", 40)] :=
  aqi_depends_only_on_three _ _ _ _
    (by simp [List.lookup]) (by simp [List.lookup]) (by simp [List.lookup])
    (by simp [who_limits, List.lookup]) (by simp [who_limits, List.lookup])
    (by simp [who_limits, List.lookup])

/-- Claim C4 (amended): the only failure of the score is the generic
missing-key failure raised when PM2.5, PM10 or NO2 is absent from the row
or from the limits table; no dedicated MissingPollutant or InvalidLimit
failure exists, and limits are not checked for positivity. -/
theorem aqi_failure_modes (row limits : List (String × ℚ)) :
    calculate_simple_aqi row limits = none ↔
      (row.lookup "PM2.5" = none ∨ limits.lookup "PM2.5" = none
        ∨ row.lookup "PM10" = none ∨ limits.lookup "PM10" = none
        ∨ row.lookup "NO2" = none ∨ limits.lookup "NO2" = none) := by
  unfold calculate_simple_aqi
  rcases e1 : row.lookup "PM2.5" with _ | p25 <;>
  rcases e2 : limits.lookup "PM2.5" with _ | l25 <;>
  rcases e3 : row.lookup "PM10" with _ | p10 <;>
  rcases e4 : limits.lookup "PM10" with _ | l10 <;>
  rcases e5 : row.lookup "NO2" with _ | n2 <;>
  rcases e6 : limits.lookup "NO2" with _ | l2 <;>
  simp

/-- Counterexample for C4: an aggregate lacking SO2 scored against a limits
table that contains SO2 with a negative limit succeeds with value 2; the
code neither raises MissingPollutant for the absent SO2 nor InvalidLimit
for the negative threshold. -/
theorem aqi_no_validation :
    calculate_simple_aqi [("PM2.5", 50), ("PM10", 50), ("NO2", 20)]
        [("PM2.5", 25), ("PM10", 50), ("NO2", 40), ("SO2", -20)] = some 2
    ∧ List.lookup "SO2" [("PM2.5", (50 : ℚ)), ("PM10", 50), ("NO2", 20)] = none
    ∧ List.lookup "SO2" [("PM2.5", (25 : ℚ)), ("PM10", 50), ("NO2", 40), ("SO2", -20)]
        = some (-20)
    ∧ (-20 : ℚ) < 0 := by
  refine ⟨?_, by simp [List.lookup], by simp [List.lookup], by norm_num⟩
  simp [calculate_simple_aqi, List.lookup]
  norm_num

/-- Claim C1 (amended): against the program's limits table the score is the
maximum of the three hard-coded ratios PM2.5/25, PM10/50 and NO2/40 only;
the SO2 and O3 entries of the table are ignored. -/
theorem aqi_uses_three_pollutants (row : List (String × ℚ)) (p25 p10 n2 : ℚ)
    (h25 : row.lookup "PM2.5" = some p25)
    (h10 : row.lookup "PM10" = some p10)
    (hn2 : row.lookup "NO2" = some n2) :
    calculate_simple_aqi row who_limits
      = some (max (p25 / 25) (max (p10 / 50) (n2 / 40))) := by
  simp [calculate_simple_aqi, who_limits, List.lookup, h25, h10, hn2]

/-- Witness for C1 (amended) on a concrete aggregate. -/
theorem aqi_uses_three_pollutants_witness :
    calculate_simple_aqi [("PM2.5", 50), ("PM10", 50), ("NO2", 20)] who_limits
      = some (max ((50 : ℚ) / 25) (max ((50 : ℚ) / 50) ((20 : ℚ) / 40))) :=
  aqi_uses_three_pollutants _ 50 50 20
    (by simp [List.lookup]) (by simp [List.lookup]) (by simp [List.lookup])

/-- Counterexample for C1: on an aggregate whose SO2 ratio is 100 while the
three hard-coded ratios are all 1, the code returns 1, not the maximum 100
over every key of the limits table demanded by the claim. -/
theorem aqi_ignores_so2_and_o3 :
    calculate_simple_aqi
        [("PM2.5", 25), ("PM10", 50), ("NO2", 40), ("SO2", 2000), ("O3", 100)]
        who_limits = some 1
    ∧ aqi_spec_value
        [("PM2.5", 25), ("PM10", 50), ("NO2", 40), ("SO2", 2000), ("O3", 100)]
        who_limits = some 100
    ∧ (1 : ℚ) < 100 := by
  refine ⟨?_, ?_, by norm_num⟩
  · simp [calculate_simple_aqi, who_limits, List.lookup]
  · simp [aqi_spec_value, who_limits, List.lookup]
    norm_num [max_def]

/-- Claim C3 (amended): months 1-3 map to Winter, 4-6 to Spring, 7-9 to
Summer, 10-12 to Fall; month 0 also maps to Winter because the first cut
interval is closed below, and any other out-of-range month yields no season
label at all (NaN), never an InvalidMonth failure. -/
theorem season_bins (m : ℤ) :
    (1 ≤ m ∧ m ≤ 3 → season m = some "Winter")
    ∧ (4 ≤ m ∧ m ≤ 6 → season m = some "Spring")
    ∧ (7 ≤ m ∧ m ≤ 9 → season m = some "Summer")
    ∧ (10 ≤ m ∧ m ≤ 12 → season m = some "Fall")
    ∧ season 0 = some "Winter"
    ∧ ((m < 0 ∨ 12 < m) → season m = none) := by
  refine ⟨?_, ?_, ?_, ?_, by decide, ?_⟩ <;>
    intro h <;> unfold season <;> split_ifs <;>
    first | rfl | (exfalso; omega)

/-- Witness for C3 (amended) at months 2 and 13. -/
theorem season_bins_witness :
    ((1 : ℤ) ≤ 2 ∧ (2 : ℤ) ≤ 3) ∧ season 2 = some "Winter" ∧ season 13 = none :=
  ⟨⟨by decide, by decide⟩, (season_bins 2).1 ⟨by decide, by decide⟩,
    (season_bins 13).2.2.2.2.2 (Or.inr (by decide))⟩

/-- Counterexample for C3: month 0 lies outside 1-12, yet the derivation
does not fail; it labels the row Winter. -/
theorem season_zero_is_winter : season 0 = some "Winter" := by decide

/-- Last non-missing value carried through a prefix of a column, the loop
invariant of the forward fill. -/
def lastVal (c : Option ℚ) : List (Option ℚ) → Option ℚ
  | [] => c
  | none :: t => lastVal c t
  | some v :: t => lastVal (some v) t

lemma ffill_getD (c : Option ℚ) (xs : List (Option ℚ)) (i : ℕ) (hi : i < xs.length) :
    (ffill c xs).getD i none = lastVal c (xs.take (i + 1)) := by
  induction xs generalizing c i with
  | nil => simp at hi
  | cons x t ih =>
    cases i with
    | zero => cases x <;> simp [ffill, lastVal]
    | succ i =>
      have hi' : i < t.length := by simpa using hi
      cases x with
      | none => simpa [ffill, lastVal] using ih c i hi'
      | some v => simpa [ffill, lastVal] using ih (some v) i hi'

lemma lastVal_all_none (c : Option ℚ) (l : List (Option ℚ)) (h : ∀ y ∈ l, y = none) :
    lastVal c l = c := by
  induction l with
  | nil => rfl
  | cons y t ih =>
    have hy := h y (List.mem_cons_self y t)
    subst hy
    exact ih fun z hz => h z (List.mem_cons_of_mem _ hz)

lemma lastVal_append (c : Option ℚ) (l1 l2 : List (Option ℚ)) :
    lastVal c (l1 ++ l2) = lastVal (lastVal c l1) l2 := by
  induction l1 generalizing c with
  | nil => rfl
  | cons y t ih => cases y <;> simp [lastVal, ih]

/-- Claim C5: a missing value at row i of a column is filled with the
nearest preceding non-missing value of that column, and stays missing when
no preceding row of the column has a value. -/
theorem ffill_nearest_preceding (xs : List (Option ℚ)) (i : ℕ)
    (hi : i < xs.length) (hmiss : xs.getD i none = none) :
    (∀ j v, j < i → xs.getD j none = some v →
        (∀ k, j < k → k < i → xs.getD k none = none) →
        (ffillCol xs).getD i none = some v)
    ∧ ((∀ j, j ≤ i → xs.getD j none = none) → (ffillCol xs).getD i none = none) := by
  have hget : (ffillCol xs).getD i none = lastVal none (xs.take (i + 1)) :=
    ffill_getD none xs i hi
  constructor
  · intro j v hj hv hbet
    rw [hget]
    have hsplit : xs.take (i + 1)
        = xs.take (j + 1) ++ (xs.take (i + 1)).drop (j + 1) := by
      conv_lhs => rw [← List.take_append_drop (j + 1) (xs.take (i + 1))]
      rw [List.take_take, show (j + 1) ⊓ (i + 1) = j + 1 from by omega]
    rw [hsplit, lastVal_append]
    have hj' : j < xs.length := by omega
    have hxj : xs[j] = some v := by
      have h' := hv
      rw [List.getD_eq_getElem?_getD, List.getElem?_eq_getElem hj'] at h'
      simpa using h'
    have h1 : lastVal none (xs.take (j + 1)) = some v := by
      rw [List.take_succ, List.getElem?_eq_getElem hj', hxj]
      rw [show (some (some v)).toList = [some v] from rfl, lastVal_append]
      simp [lastVal]
    rw [h1]
    apply lastVal_all_none
    intro y hy
    rw [List.mem_iff_getElem] at hy
    obtain ⟨k, hk, hky⟩ := hy
    rw [List.getElem_drop, List.getElem_take] at hky
    have hlen : k < (i + 1) ⊓ xs.length - (j + 1) := by simpa using hk
    have hmk : j + 1 + k < xs.length := by omega
    have hik : j + 1 + k ≤ i := by omega
    have hgd : xs.getD (j + 1 + k) none = y := by
      rw [List.getD_eq_getElem?_getD, List.getElem?_eq_getElem hmk]
      simpa using hky
    rcases Nat.lt_or_ge (j + 1 + k) i with hlt | hge
    · rw [← hgd]
      exact hbet _ (by omega) hlt
    · rw [← hgd, show j + 1 + k = i from by omega]
      exact hmiss
  · intro hall
    rw [hget]
    apply lastVal_all_none
    intro y hy
    rw [List.mem_iff_getElem] at hy
    obtain ⟨k, hk, hky⟩ := hy
    rw [List.getElem_take] at hky
    have hk1 : k < (i + 1) ⊓ xs.length := by simpa using hk
    have hkx : k < xs.length := by omega
    have hgd : xs.getD k none = y := by
      rw [List.getD_eq_getElem?_getD, List.getElem?_eq_getElem hkx]
      simpa using hky
    rw [← hgd]
    exact hall k (by omega)

/-- Witness for C5: in the column [5, missing, missing] row 2 is filled
with the value 5 found at row 0. -/
theorem ffill_nearest_preceding_witness :
    (ffillCol [some (5 : ℚ), none, none]).getD 2 none = some 5 :=
  (ffill_nearest_preceding [some 5, none, none] 2 (by decide) (by rfl)).1 0 5
    (by omega) (by rfl)
    (fun k h1 h2 => by
      have hk : k = 1 := by omega
      subst hk
      rfl)

lemma ffill_ffill (c : Option ℚ) (xs : List (Option ℚ)) :
    ffill c (ffill c xs) = ffill c xs := by
  induction xs generalizing c with
  | nil => rfl
  | cons x t ih =>
    cases x with
    | none => cases c <;> simp [ffill, ih]
    | some v => simp [ffill, ih]

/-- Claim C8: forward filling an already forward-filled column changes
nothing; running the derivation twice equals running it once. -/
theorem ffill_idempotent (xs : List (Option ℚ)) : ffillCol (ffillCol xs) = ffillCol xs :=
  ffill_ffill none xs

lemma lookup_le_of_agree (row1 row2 : List (String × ℚ)) (q k : String)
    (hagree : ∀ j, j ≠ q → row1.lookup j = row2.lookup j)
    (hmono : ∀ a, row1.lookup q = some a → ∃ b, row2.lookup q = some b ∧ a ≤ b)
    (v1 : ℚ) (h : row1.lookup k = some v1) :
    ∃ v2, row2.lookup k = some v2 ∧ v1 ≤ v2 := by
  by_cases hk : k = q
  · subst hk
    exact hmono v1 h
  · exact ⟨v1, (hagree k hk) ▸ h, le_refl v1⟩

/-- Claim C7: with a positive limits table fixed, raising a single
pollutant of the aggregate while leaving every other key unchanged never
lowers the score. -/
theorem aqi_monotone (row1 row2 limits : List (String × ℚ)) (q : String) (s1 s2 : ℚ)
    (hagree : ∀ k, k ≠ q → row1.lookup k = row2.lookup k)
    (hmono : ∀ a, row1.lookup q = some a → ∃ b, row2.lookup q = some b ∧ a ≤ b)
    (hpos : ∀ k l, limits.lookup k = some l → 0 < l)
    (h1 : calculate_simple_aqi row1 limits = some s1)
    (h2 : calculate_simple_aqi row2 limits = some s2) :
    s1 ≤ s2 := by
  unfold calculate_simple_aqi at h1 h2
  rcases e1 : row1.lookup "PM2.5" with _ | p25 <;> rw [e1] at h1
  · simp at h1
  rcases el1 : limits.lookup "PM2.5" with _ | l25 <;> rw [el1] at h1 h2
  · simp at h1
  rcases e3 : row1.lookup "PM10" with _ | p10 <;> rw [e3] at h1
  · simp at h1
  rcases el3 : limits.lookup "PM10" with _ | l10 <;> rw [el3] at h1 h2
  · simp at h1
  rcases e5 : row1.lookup "NO2" with _ | n2 <;> rw [e5] at h1
  · simp at h1
  rcases el5 : limits.lookup "NO2" with _ | l2 <;> rw [el5] at h1 h2
  · simp at h1
  obtain ⟨p25', e1', hle25⟩ := lookup_le_of_agree row1 row2 q "PM2.5" hagree hmono p25 e1
  obtain ⟨p10', e3', hle10⟩ := lookup_le_of_agree row1 row2 q "PM10" hagree hmono p10 e3
  obtain ⟨n2', e5', hlen2⟩ := lookup_le_of_agree row1 row2 q "NO2" hagree hmono n2 e5
  rw [e1', e3', e5'] at h2
  simp only [Option.some.injEq] at h1 h2
  subst h1
  subst h2
  have hl25 : 0 < l25 := hpos _ _ el1
  have hl10 : 0 < l10 := hpos _ _ el3
  have hl2 : 0 < l2 := hpos _ _ el5
  exact max_le_max ((div_le_div_iff_of_pos_right hl25).mpr hle25)
    (max_le_max ((div_le_div_iff_of_pos_right hl10).mpr hle10) ((div_le_div_iff_of_pos_right hl2).mpr hlen2))

/-- Witness for C7 with two equal aggregates and the WHO table. -/
theorem aqi_monotone_witness : (2 : ℚ) ≤ 2 :=
  aqi_monotone [("PM2.5", 50), ("PM10", 50), ("NO2", 20)]
    [("PM2.5", 50), ("PM10", 50), ("NO2", 20)] who_limits "NO2" 2 2
    (fun k _ => rfl)
    (fun a h => ⟨a, h, le_refl a⟩)
    (by
      intro k l h
      simp only [who_limits, List.lookup] at h
      repeat' split at h
      all_goals cases h
      all_goals norm_num)
    (by simp [calculate_simple_aqi, who_limits, List.lookup]; norm_num)
    (by simp [calculate_simple_aqi, who_limits, List.lookup]; norm_num)
